import Mathlib

/-!
Shallow embedding of the LiveSplit.SonicSuperstars autosplitter
(`src/src/lib.rs`) for checking its natural-language specification.

Modelling conventions:
* Machine integers (`u32`, `u8`) are modelled as `Nat`; the program only
  reads and compares them (no arithmetic that could overflow).
* A fallible memory read (`Result`/`Option` in the source) is modelled as
  an `Option` input supplied to the sampling pass each tick.
* The external `asr` watcher type (`Watcher<T>` with its `Pair<T>` of
  `old`/`current` values) is embedded following its documented semantics,
  which the spec restates as the Watched Value contract: `update_infallible`
  shifts `current` into `old` and installs the new sample, a first update
  installs the sample in both slots.
* The timer sink is modelled by a list of emitted commands per tick.
-/

namespace SonicSuperstars

/-- A pair of consecutive samples of a watched value (asr `Pair<T>`). -/
structure Pair (α : Type) where
  old : α
  current : α
deriving DecidableEq, Repr

/-- Embeds asr `Pair::changed`: the two consecutive samples differ. -/
def Pair.changed {α : Type} [DecidableEq α] (p : Pair α) : Bool :=
  decide (p.old ≠ p.current)

/-- Embeds asr `Pair::changed_to`: the value changed and the new sample equals `v`. -/
def Pair.changed_to {α : Type} [DecidableEq α] (p : Pair α) (v : α) : Bool :=
  p.changed && decide (p.current = v)

/-- A watched value (asr `Watcher<T>`): `none` means never sampled. -/
structure Watcher (α : Type) where
  pair : Option (Pair α) := none
deriving DecidableEq, Repr

/-- Embeds asr `Watcher::update_infallible`: shift `current` into `old` and
install the new sample; the first update installs it in both slots. -/
def Watcher.update_infallible {α : Type} (w : Watcher α) (value : α) : Watcher α :=
  match w.pair with
  | none => { pair := some { old := value, current := value } }
  | some p => { pair := some { old := p.current, current := value } }

/-- Embeds Rust `Option::is_some_and` as used on `Watcher::pair`. -/
def optIsSomeAnd {α : Type} (o : Option (Pair α)) (f : Pair α → Bool) : Bool :=
  match o with
  | some p => f p
  | none => false

/-- Embeds the `Settings` struct (`lib.rs` 95-274); field defaults mirror the
`#[default = ...]` attributes. -/
structure Settings where
  start_story : Bool := true
  start_trip : Bool := true
  start_last_story : Bool := true
  sepStory : Bool := false
  bridge_island_1 : Bool := true
  bridge_island_2 : Bool := true
  bridge_island_fruit : Bool := true
  speed_jungle_1 : Bool := true
  speed_jungle_sonic : Bool := true
  speed_jungle_2 : Bool := true
  sky_temple_1 : Bool := true
  pinball_carnival_1 : Bool := true
  pinball_carnival_2 : Bool := true
  pinball_carnival_fruit : Bool := true
  lagoon_city_1 : Bool := true
  lagoon_city_amy : Bool := true
  lagoon_city_2 : Bool := true
  sand_sanctuary_1 : Bool := true
  press_factory_1 : Bool := true
  press_factory_2 : Bool := true
  press_factory_fruit : Bool := true
  golden_capital_1 : Bool := true
  golden_capital_knuckles : Bool := true
  golden_capital_2 : Bool := true
  cyber_station_1 : Bool := true
  frozen_base_1 : Bool := true
  frozen_base_tails : Bool := true
  frozen_base_2 : Bool := true
  egg_fortress_1 : Bool := true
  egg_fortress_2 : Bool := true
  sepTrip : Bool := false
  trip_bridge_island_1 : Bool := true
  trip_bridge_island_2 : Bool := true
  trip_bridge_island_fruit : Bool := true
  trip_speed_jungle_1 : Bool := true
  trip_speed_jungle_2 : Bool := true
  trip_speed_jungle_3 : Bool := true
  trip_sky_temple_1 : Bool := true
  trip_pinball_carnival_1 : Bool := true
  trip_pinball_carnival_2 : Bool := true
  trip_pinball_carnival_fruit : Bool := true
  trip_lagoon_city_1 : Bool := true
  trip_lagoon_city_2 : Bool := true
  trip_lagoon_city_3 : Bool := true
  trip_sand_sanctuary_1 : Bool := true
  trip_press_factory_1 : Bool := true
  trip_press_factory_2 : Bool := true
  trip_press_factory_fruit : Bool := true
  trip_golden_capital_1 : Bool := true
  trip_golden_capital_2 : Bool := true
  trip_golden_capital_3 : Bool := true
  trip_cyber_station_1 : Bool := true
  trip_frozen_base_1 : Bool := true
  trip_frozen_base_2 : Bool := true
  trip_frozen_base_3 : Bool := true
  trip_egg_fortress_1 : Bool := true
  trip_egg_fortress_2 : Bool := true
  sepFinalStory : Bool := false
  black_dragon : Bool := true
deriving DecidableEq, Repr

/-- The settings object with every toggle at its declared default. -/
def SettingsDefault : Settings := {}

/-- Embeds the `Watchers` struct (`lib.rs` 276-285); all watchers start empty. -/
structure Watchers where
  start_trigger : Watcher Bool := {}
  start_trigger_trip : Watcher Bool := {}
  game_mode : Watcher Nat := {}
  level_id : Watcher Nat := {}
  is_loading : Watcher Bool := {}
  goal_ring_flag : Watcher Bool := {}
  boss_defeated : Watcher Bool := {}
deriving DecidableEq, Repr

/-- A fresh watcher set, as built at the start of a session (`Watchers::default()`). -/
def emptyWatchers : Watchers := {}

/-- Embeds the Story Mode arm of the level-id table in `split` (`lib.rs`
710-739); the Rust `match` on distinct `u32` keys is rendered as a
first-match chain of equality tests. -/
def storyLevelToggle (st : Settings) (levelIdOld : Nat) : Bool :=
  if levelIdOld = 10100 then st.bridge_island_1
  else if levelIdOld = 10200 then st.bridge_island_2
  else if levelIdOld = 600102 then st.bridge_island_fruit
  else if levelIdOld = 20100 then st.speed_jungle_1
  else if levelIdOld = 20200 then st.speed_jungle_sonic
  else if levelIdOld = 20300 then st.speed_jungle_2
  else if levelIdOld = 30100 then st.sky_temple_1
  else if levelIdOld = 40100 then st.pinball_carnival_1
  else if levelIdOld = 40200 then st.pinball_carnival_2
  else if levelIdOld = 600401 then st.pinball_carnival_fruit
  else if levelIdOld = 50100 then st.lagoon_city_1
  else if levelIdOld = 50200 then st.lagoon_city_amy
  else if levelIdOld = 50300 then st.lagoon_city_2
  else if levelIdOld = 60100 then st.sand_sanctuary_1
  else if levelIdOld = 70100 then st.press_factory_1
  else if levelIdOld = 70200 then st.press_factory_2
  else if levelIdOld = 600702 then st.press_factory_fruit
  else if levelIdOld = 80100 then st.golden_capital_1
  else if levelIdOld = 80200 then st.golden_capital_knuckles
  else if levelIdOld = 80300 then st.golden_capital_2
  else if levelIdOld = 90100 then st.cyber_station_1
  else if levelIdOld = 100100 then st.frozen_base_1
  else if levelIdOld = 100200 then st.frozen_base_tails
  else if levelIdOld = 100300 then st.frozen_base_2
  else if levelIdOld = 110100 then st.egg_fortress_1
  else if levelIdOld = 110200 then st.egg_fortress_2
  else false

/-- Embeds the Trip's Story arm of the level-id table in `split` (`lib.rs`
742-771), rendered like `storyLevelToggle`. -/
def tripLevelToggle (st : Settings) (levelIdOld : Nat) : Bool :=
  if levelIdOld = 10100 then st.trip_bridge_island_1
  else if levelIdOld = 10200 then st.trip_bridge_island_2
  else if levelIdOld = 600102 then st.trip_bridge_island_fruit
  else if levelIdOld = 20100 then st.trip_speed_jungle_1
  else if levelIdOld = 20200 then st.trip_speed_jungle_2
  else if levelIdOld = 20300 then st.trip_speed_jungle_3
  else if levelIdOld = 30100 then st.trip_sky_temple_1
  else if levelIdOld = 40100 then st.trip_pinball_carnival_1
  else if levelIdOld = 40200 then st.trip_pinball_carnival_2
  else if levelIdOld = 600401 then st.trip_pinball_carnival_fruit
  else if levelIdOld = 50100 then st.trip_lagoon_city_1
  else if levelIdOld = 50200 then st.trip_lagoon_city_2
  else if levelIdOld = 50300 then st.trip_lagoon_city_3
  else if levelIdOld = 60100 then st.trip_sand_sanctuary_1
  else if levelIdOld = 70100 then st.trip_press_factory_1
  else if levelIdOld = 70200 then st.trip_press_factory_2
  else if levelIdOld = 600702 then st.trip_press_factory_fruit
  else if levelIdOld = 80100 then st.trip_golden_capital_1
  else if levelIdOld = 80200 then st.trip_golden_capital_2
  else if levelIdOld = 80300 then st.trip_golden_capital_3
  else if levelIdOld = 90100 then st.trip_cyber_station_1
  else if levelIdOld = 100100 then st.trip_frozen_base_1
  else if levelIdOld = 100200 then st.trip_frozen_base_2
  else if levelIdOld = 100300 then st.trip_frozen_base_3
  else if levelIdOld = 110100 then st.trip_egg_fortress_1
  else if levelIdOld = 110200 then st.trip_egg_fortress_2
  else false

/-- Embeds `start` (`lib.rs` 664-680): three OR'ed triggers, each gated by its
enable toggle and firing on a `changed_to` edge of its watcher. -/
def start (w : Watchers) (st : Settings) : Bool :=
  (st.start_story && optIsSomeAnd w.start_trigger.pair (fun v => v.changed_to true))
    || (st.start_trip && optIsSomeAnd w.start_trigger_trip.pair (fun v => v.changed_to true))
    || (st.start_last_story && optIsSomeAnd w.game_mode.pair (fun v => v.changed_to 2))

/-- Names the boss-defeated edge test that `split` performs twice
(`lib.rs` 695-698 and 774-777): `is_some_and(|val| val.changed_to(&true))`. -/
def bossEdge (w : Watchers) : Bool :=
  optIsSomeAnd w.boss_defeated.pair (fun v => v.changed_to true)

/-- The body of `split` (`lib.rs` 693-781) once its three watcher pairs are in
hand: the early-return final-boss block (the Rust `match` inside the `if`
returns only for game modes 0 and 1 and falls through otherwise, which the
embedded guard makes explicit), then the per-mode outer match. -/
def splitCore (st : Settings) (game_mode level_id : Pair Nat) (goal_ring : Pair Bool)
    (bossDefeatedEdge : Bool) : Bool :=
  if (decide (level_id.old = 110200) && (bossDefeatedEdge || goal_ring.changed_to true))
      && (decide (game_mode.current = 0) || decide (game_mode.current = 1)) then
    if game_mode.current = 0 then st.egg_fortress_2 else st.trip_egg_fortress_2
  else
    match game_mode.current with
    | 0 => goal_ring.changed_to false && storyLevelToggle st level_id.old
    | 1 => goal_ring.changed_to false && tripLevelToggle st level_id.old
    | 2 => bossDefeatedEdge && st.black_dragon
    | _ => false

/-- Embeds `split` (`lib.rs` 682-782): the three `let ... else` guards that
treat a never-sampled quantity as no signal, then `splitCore`. -/
def split (w : Watchers) (st : Settings) : Bool :=
  match w.game_mode.pair, w.level_id.pair, w.goal_ring_flag.pair with
  | some game_mode, some level_id, some goal_ring =>
    splitCore st game_mode level_id goal_ring (bossEdge w)
  | _, _, _ => false

/-- Embeds `reset` (`lib.rs` 784-786): constantly false. -/
def reset (_w : Watchers) (_st : Settings) : Bool :=
  false

/-- Embeds `is_loading` (`lib.rs` 788-790): the current value of the loading
watcher, `none` if never sampled. -/
def is_loading (w : Watchers) (_st : Settings) : Option Bool :=
  w.is_loading.pair.map Pair.current

/-- Embeds `game_time` (`lib.rs` 792-794): constantly `none` (the `Duration`
payload is modelled as `Int`; no value is ever produced). -/
def game_time (_w : Watchers) (_st : Settings) : Option Int :=
  none

/-- Embeds the `GAME_SCENE_CONTROLLER_TYPES` constant of `update_loop`
(`lib.rs` 513-522). -/
def GAME_SCENE_CONTROLLER_TYPES : List String :=
  ["GameSceneController",
   "BlackDragonBattleGameSceneController",
   "BRMainGameSceneController",
   "BROverallResultSceneController",
   "EndingGameSceneController",
   "MiniActGameSceneController",
   "ShootingGameSceneController",
   "WorldMapGameSceneController"]

/-- Embeds the `BOSSES_TYPES` constant of `update_loop` (`lib.rs` 524). -/
def BOSSES_TYPES : List String :=
  ["Bos111", "Bos112"]

/-- The raw memory reads performed by one execution of `update_loop`
(`lib.rs` 512-662): each fallible read of the target process is an `Option`
input (`none` means the read failed this tick). Address values themselves are
irrelevant to the watcher semantics and are not modelled; `sysSaveOk` stands
for the success of the `sys_save` base-pointer read, `saveSlotRead` for the
slot pointer-path read that is attempted only when `sysSaveOk` holds. -/
structure TickInput where
  sceneNameRead : Option String := none
  sysSaveOk : Bool := false
  saveSlotRead : Option Unit := none
  isNormalFirstPlayRead : Option Bool := none
  isTripFirstPlayRead : Option Bool := none
  levelIdRead : Option Nat := none
  isLoadingRead : Option Bool := none
  isTimeAttackRead : Option Bool := none
  isResultSequenceRead : Option Bool := none
  isGoalSequenceRead : Option Bool := none
  gameModeRead : Option Nat := none
  bossNameRead : Option String := none
  bossBaseTypeRead : Option Nat := none
deriving Repr

/-- Embeds the `is_game_scene` computation of `update_loop` (`lib.rs` 532-539):
the scene-controller class name (empty string when the read fails, per
`unwrap_or_default`) compared against the known game-scene class names. -/
def isGameScene (sceneNameRead : Option String) : Bool :=
  GAME_SCENE_CONTROLLER_TYPES.any (fun v => (sceneNameRead.getD "") == v)

/-- Embeds the boss-type recognition check of `update_loop` (`lib.rs` 635-645):
`is_ok_and` on the active-boss class-name read, so a failed read is `false`. -/
def bossRecognized (bossNameRead : Option String) : Bool :=
  match bossNameRead with
  | some n => BOSSES_TYPES.any (fun v => n == v)
  | none => false

/-- Embeds `update_loop` (`lib.rs` 512-662): one sampling pass. Every watcher
is fed through `update_infallible`; failed reads are absorbed before the
watcher, either by a type default (`unwrap_or_default` / `is_ok_and`) or by
repeating the watcher's previous `current` value when the containing context
is not live (`level_id` and `goal_ring_flag` outside a game scene,
`boss_defeated` when the active boss type is not recognized). -/
def update_loop (inp : TickInput) (w : Watchers) : Watchers :=
  let is_game_scene := isGameScene inp.sceneNameRead
  let save_slot : Option Unit := if inp.sysSaveOk then inp.saveSlotRead else none
  { start_trigger :=
      w.start_trigger.update_infallible
        (!(match save_slot with
           | some _ => inp.isNormalFirstPlayRead.getD false
           | none => false))
    start_trigger_trip :=
      w.start_trigger_trip.update_infallible
        (!(match save_slot with
           | some _ => inp.isTripFirstPlayRead.getD false
           | none => false))
    level_id :=
      w.level_id.update_infallible
        (if is_game_scene then inp.levelIdRead.getD 0
         else
           match w.level_id.pair with
           | some x => x.current
           | _ => 0)
    is_loading :=
      w.is_loading.update_infallible (inp.isLoadingRead.getD false)
    goal_ring_flag :=
      w.goal_ring_flag.update_infallible
        (if is_game_scene then
           if inp.isTimeAttackRead.getD false then false
           else
             (inp.isResultSequenceRead.getD false) || (inp.isGoalSequenceRead.getD false)
         else
           match w.goal_ring_flag.pair with
           | some x => x.current
           | _ => false)
    game_mode :=
      w.game_mode.update_infallible (inp.gameModeRead.getD 0)
    boss_defeated :=
      w.boss_defeated.update_infallible
        (if bossRecognized inp.bossNameRead then
           match inp.bossBaseTypeRead with
           | some v => decide (v = 3)
           | none => false
         else
           match w.boss_defeated.pair with
           | some x => x.current
           | _ => false) }

/-- Applies the sampling pass once per tick over a list of tick inputs. -/
def applyTicks (inps : List TickInput) (w : Watchers) : Watchers :=
  inps.foldl (fun acc i => update_loop i acc) w

/-- The state of the external timer (asr `TimerState`); only the variants the
program inspects are modelled. -/
inductive TimerState where
  | NotRunning
  | Running
  | Paused
  | Ended
deriving DecidableEq, Repr

/-- A command issued to the external timer sink: the five outbound commands of
the main loop (`pause_game_time` / `resume_game_time` are the two polarities of
the spec's `set_loading_paused(bool)`, `setGameTime` is `set_elapsed_time`). -/
inductive TimerCommand where
  | start
  | split
  | reset
  | pauseGameTime
  | resumeGameTime
  | setGameTime
deriving DecidableEq, Repr

/-- Embeds the reset-else-split emission step of the main loop (`lib.rs`
68-72), parametrized by the boolean outcomes of the `reset` and `split`
calls. -/
def resetSplitStep (doReset doSplit : Bool) : List TimerCommand :=
  if doReset then [TimerCommand.reset]
  else if doSplit then [TimerCommand.split]
  else []

/-- Embeds the pause-or-resume emission on the loading flag (`lib.rs` 56-62
and 79-85): pause when `some true`, resume when `some false`, nothing when the
flag was never sampled. -/
def loadingStep (loading : Option Bool) : List TimerCommand :=
  match loading with
  | some true => [TimerCommand.pauseGameTime]
  | some false => [TimerCommand.resumeGameTime]
  | none => []

/-- Embeds one iteration of the main tick loop's command emission (`lib.rs`
54-88), in emission order. `timer::state()` is read twice in the source (line
54 and line 75); no suspension point lies between the two reads and none of
the commands the loop can issue in between moves the timer into `NotRunning`
(`reset` never fires), so both reads are modelled by the single `ts`. -/
def tickCommands (ts : TimerState) (w : Watchers) (st : Settings) : List TimerCommand :=
  (if ts = TimerState.Running ∨ ts = TimerState.Paused then
    loadingStep (is_loading w st)
      ++ (match game_time w st with
          | some _ => [TimerCommand.setGameTime]
          | none => [])
      ++ resetSplitStep (reset w st) (split w st)
   else [])
  ++ (if ts = TimerState.NotRunning ∧ start w st = true then
        TimerCommand.start :: TimerCommand.pauseGameTime :: loadingStep (is_loading w st)
      else [])

/-! Helper lemmas shared by several proofs. -/

theorem reset_not_mem_loadingStep (o : Option Bool) :
    TimerCommand.reset ∉ loadingStep o := by
  rcases o with _ | b
  · simp [loadingStep]
  · cases b <;> simp [loadingStep]

theorem start_not_mem_loadingStep (o : Option Bool) :
    TimerCommand.start ∉ loadingStep o := by
  rcases o with _ | b
  · simp [loadingStep]
  · cases b <;> simp [loadingStep]

theorem reset_not_mem_resetSplitStep_of_false (s : Bool) :
    TimerCommand.reset ∉ resetSplitStep false s := by
  cases s <;> simp [resetSplitStep]

theorem tick_never_emits_reset (ts : TimerState) (w : Watchers) (st : Settings) :
    TimerCommand.reset ∉ tickCommands ts w st := by
  intro h
  unfold tickCommands at h
  rw [List.mem_append] at h
  rcases h with h | h
  · split at h
    · rw [List.mem_append, List.mem_append] at h
      rcases h with (h | h) | h
      · exact reset_not_mem_loadingStep _ h
      · simp [game_time] at h
      · have hr : reset w st = false := rfl
        rw [hr] at h
        exact reset_not_mem_resetSplitStep_of_false _ h
    · simp at h
  · split at h
    · rw [List.mem_cons, List.mem_cons] at h
      rcases h with h | h | h
      · exact absurd h (by simp)
      · exact absurd h (by simp)
      · exact reset_not_mem_loadingStep _ h
    · simp at h

/-- C10: `reset()` returns false for every snapshot and configuration, so the
tick loop never issues the reset command. -/
theorem C10_reset_never :
    (∀ (w : Watchers) (st : Settings), reset w st = false)
    ∧ ∀ (ts : TimerState) (w : Watchers) (st : Settings),
        TimerCommand.reset ∉ tickCommands ts w st :=
  ⟨fun _ _ => rfl, tick_never_emits_reset⟩

/-- C3: a watched quantity that has never been sampled (`pair = none`) is
treated as no signal: `split` is false when any of its three guard quantities
is absent, the mode-2 (boss) split is false when the boss quantity is absent,
`start` is false when all of its trigger quantities are absent, `reset` is
always false, and `is_loading` yields no pause/resume signal. -/
theorem C3_absent_sample_is_no_signal :
    (∀ (w : Watchers) (st : Settings), w.game_mode.pair = none → split w st = false)
    ∧ (∀ (w : Watchers) (st : Settings), w.level_id.pair = none → split w st = false)
    ∧ (∀ (w : Watchers) (st : Settings), w.goal_ring_flag.pair = none → split w st = false)
    ∧ (∀ (w : Watchers) (st : Settings) (m : Pair Nat),
        w.boss_defeated.pair = none → w.game_mode.pair = some m → m.current = 2 →
        split w st = false)
    ∧ (∀ (w : Watchers) (st : Settings),
        w.start_trigger.pair = none → w.start_trigger_trip.pair = none →
        w.game_mode.pair = none → start w st = false)
    ∧ (∀ (w : Watchers) (st : Settings), reset w st = false)
    ∧ (∀ (w : Watchers) (st : Settings),
        w.is_loading.pair = none → is_loading w st = none) := by
  refine ⟨fun w st h => ?_, fun w st h => ?_, fun w st h => ?_,
    fun w st m hb hm hc => ?_, fun w st h1 h2 h3 => ?_, fun _ _ => rfl,
    fun w st h => ?_⟩
  · simp [split, h]
  · rcases hg : w.game_mode.pair with _ | m <;> simp [split, hg, h]
  · rcases hg : w.game_mode.pair with _ | m <;>
      rcases hl : w.level_id.pair with _ | lp <;> simp [split, hg, hl, h]
  · rcases hl : w.level_id.pair with _ | lp <;>
      rcases hgr : w.goal_ring_flag.pair with _ | gp <;>
      simp [split, splitCore, bossEdge, hm, hl, hgr, hb, hc, optIsSomeAnd]
  · simp [start, h1, h2, h3, optIsSomeAnd]
  · simp [is_loading, h]

/-- Closed instantiation of `C3_absent_sample_is_no_signal` at the fresh
watcher set of a new session. -/
theorem C3_absent_sample_is_no_signal_witness :
    split emptyWatchers SettingsDefault = false
    ∧ start emptyWatchers SettingsDefault = false
    ∧ reset emptyWatchers SettingsDefault = false
    ∧ is_loading emptyWatchers SettingsDefault = none :=
  ⟨C3_absent_sample_is_no_signal.1 emptyWatchers SettingsDefault rfl,
   C3_absent_sample_is_no_signal.2.2.2.2.1 emptyWatchers SettingsDefault rfl rfl rfl,
   C3_absent_sample_is_no_signal.2.2.2.2.2.1 emptyWatchers SettingsDefault,
   C3_absent_sample_is_no_signal.2.2.2.2.2.2 emptyWatchers SettingsDefault rfl⟩

/-- Snapshot refuting C1 as stated: story mode, captured level id 110200 (the
final-boss stage), goal flag rising false→true, boss quantity never sampled. -/
def C1w : Watchers :=
  { game_mode := { pair := some { old := 0, current := 0 } }
    level_id := { pair := some { old := 110200, current := 110200 } }
    goal_ring_flag := { pair := some { old := false, current := true } } }

/-- C1 counterexample: with the default settings, a false→true transition of
the goal flag does cause `split` to return true when the captured level id is
110200, through the final-boss early-return block. -/
theorem C1_rising_edge_counterexample :
    C1w.goal_ring_flag.pair = some { old := false, current := true }
    ∧ split C1w SettingsDefault = true :=
  ⟨rfl, by decide⟩

/-- C1 (amended): outside the final-boss block (captured level id 110200, where
a rising goal edge is itself a terminal split trigger) and absent a
boss-defeated edge, a false→true goal transition never makes `split` return
true; a true→false goal transition makes `split` return exactly the toggle
that the captured level id selects in the active mode's level table (story
mode 0 and Trip mode 1). -/
theorem C1_falling_edge_splits :
    ∀ (w : Watchers) (st : Settings) (gp : Pair Bool) (lp : Pair Nat),
      w.goal_ring_flag.pair = some gp → w.level_id.pair = some lp →
      ((gp.old = false → gp.current = true → lp.old ≠ 110200 →
          bossEdge w = false →
          split w st = false)
        ∧ (gp.old = true → gp.current = false →
            ∀ m : Pair Nat, w.game_mode.pair = some m →
              (m.current = 0 → split w st = storyLevelToggle st lp.old)
              ∧ (m.current = 1 → split w st = tripLevelToggle st lp.old))) := by
  intro w st gp lp hgr hl
  constructor
  · intro hold hcur h110 hboss
    rcases hg : w.game_mode.pair with _ | m
    · simp [split, hg]
    · rcases hmc : m.current with _ | _ | _ | n <;>
        simp [split, splitCore, hg, hl, hgr, hmc, h110, hboss, Pair.changed_to,
          Pair.changed, hold, hcur]
  · intro hold hcur m hg
    constructor
    · intro hmc
      cases hboss : bossEdge w <;> by_cases h110 : lp.old = 110200 <;>
        simp [split, splitCore, hg, hl, hgr, hmc, h110, hboss, Pair.changed_to,
          Pair.changed, hold, hcur, storyLevelToggle]
    · intro hmc
      cases hboss : bossEdge w <;> by_cases h110 : lp.old = 110200 <;>
        simp [split, splitCore, hg, hl, hgr, hmc, h110, hboss, Pair.changed_to,
          Pair.changed, hold, hcur, tripLevelToggle]

/-- A rising-edge snapshot away from the final-boss stage, for the C1 witness. -/
def C1wRising : Watchers :=
  { game_mode := { pair := some { old := 0, current := 0 } }
    level_id := { pair := some { old := 10100, current := 10100 } }
    goal_ring_flag := { pair := some { old := false, current := true } } }

/-- A falling-edge snapshot at Bridge Island Act 1, for the C1 witness. -/
def C1wFalling : Watchers :=
  { game_mode := { pair := some { old := 0, current := 0 } }
    level_id := { pair := some { old := 10100, current := 10100 } }
    goal_ring_flag := { pair := some { old := true, current := false } } }

/-- Closed instantiation of `C1_falling_edge_splits`: the rising edge at level
10100 does not split, the falling edge there splits per the story table. -/
theorem C1_falling_edge_splits_witness :
    split C1wRising SettingsDefault = false
    ∧ split C1wFalling SettingsDefault = storyLevelToggle SettingsDefault 10100 :=
  ⟨(C1_falling_edge_splits C1wRising SettingsDefault _ _ rfl rfl).1 rfl rfl
      (by decide) rfl,
   ((C1_falling_edge_splits C1wFalling SettingsDefault _ _ rfl rfl).2 rfl rfl
      { old := 0, current := 0 } rfl).1 rfl⟩

theorem mem_resetSplitStep_false {c : TimerCommand} {s : Bool}
    (h : c ∈ resetSplitStep false s) : c = TimerCommand.split := by
  cases s
  · simp [resetSplitStep] at h
  · simp [resetSplitStep] at h
    exact h

/-- C4: in the emission step of the tick loop a true reset outcome yields the
reset command alone, suppressing split; and no tick ever emits both the reset
and the split command. -/
theorem C4_reset_priority_over_split :
    (∀ (doReset doSplit : Bool), doReset = true →
        resetSplitStep doReset doSplit = [TimerCommand.reset])
    ∧ ∀ (ts : TimerState) (w : Watchers) (st : Settings),
        ¬(TimerCommand.reset ∈ tickCommands ts w st
          ∧ TimerCommand.split ∈ tickCommands ts w st) := by
  constructor
  · intro r s hr
    subst hr
    rfl
  · intro ts w st h
    exact tick_never_emits_reset ts w st h.1

/-- Closed instantiation of `C4_reset_priority_over_split`: with both outcomes
true, only the reset command is emitted. -/
theorem C4_reset_priority_over_split_witness :
    resetSplitStep true true = [TimerCommand.reset] :=
  C4_reset_priority_over_split.1 true true rfl

theorem start_mem_tickCommands {ts : TimerState} {w : Watchers} {st : Settings}
    (h : TimerCommand.start ∈ tickCommands ts w st) : ts = TimerState.NotRunning := by
  cases ts
  · rfl
  all_goals
    exfalso
    cases hs : split w st <;>
      rcases hl : is_loading w st with _ | (_ | _) <;>
        simp [tickCommands, game_time, reset, resetSplitStep, loadingStep, hs, hl] at h

/-- C6: when the timer is already running or paused, the tick never issues the
start command, whatever the watcher snapshot says. -/
theorem C6_no_start_when_running :
    ∀ (ts : TimerState) (w : Watchers) (st : Settings),
      ts = TimerState.Running ∨ ts = TimerState.Paused →
      TimerCommand.start ∉ tickCommands ts w st := by
  intro ts w st hts h
  have hns := start_mem_tickCommands h
  rcases hts with hts | hts <;> subst hts <;> simp at hns

/-- Snapshot with the story start trigger firing, for the C6 witness. -/
def C6w : Watchers :=
  { start_trigger := { pair := some { old := false, current := true } } }

/-- Closed instantiation of `C6_no_start_when_running`: the trigger fires but
the timer is running, so no start command is emitted. -/
theorem C6_no_start_when_running_witness :
    start C6w SettingsDefault = true
    ∧ TimerCommand.start ∉ tickCommands TimerState.Running C6w SettingsDefault :=
  ⟨by decide,
   C6_no_start_when_running TimerState.Running C6w SettingsDefault (Or.inl rfl)⟩

/-- C7: on a tick where the timer is not running and the start trigger fires,
the emitted command sequence is exactly the start command, the unconditional
pause of elapsed time, and then the pause or resume dictated by re-evaluating
the loading flag. -/
theorem C7_post_start_loading_reevaluation :
    ∀ (w : Watchers) (st : Settings) (b : Bool),
      start w st = true → is_loading w st = some b →
      tickCommands TimerState.NotRunning w st
        = [TimerCommand.start, TimerCommand.pauseGameTime]
          ++ (if b then [TimerCommand.pauseGameTime] else [TimerCommand.resumeGameTime]) := by
  intro w st b hs hl
  unfold tickCommands
  cases b <;> simp [hs, hl, loadingStep]

/-- Snapshot with the story start trigger firing and the loading flag sampled
false, for the C7 witness. -/
def C7w : Watchers :=
  { start_trigger := { pair := some { old := false, current := true } }
    is_loading := { pair := some { old := false, current := false } } }

/-- Closed instantiation of `C7_post_start_loading_reevaluation`: start fires
with the loading flag false, so the tick emits start, the unconditional pause,
then the resume from the loading re-evaluation. -/
theorem C7_post_start_loading_reevaluation_witness :
    tickCommands TimerState.NotRunning C7w SettingsDefault
      = [TimerCommand.start, TimerCommand.pauseGameTime, TimerCommand.resumeGameTime] := by
  simpa using C7_post_start_loading_reevaluation C7w SettingsDefault false (by decide) rfl

/-- Snapshot refuting C8 as stated: the story start trigger fires while the
loading flag is sampled true, so the start tick pauses elapsed time twice. -/
def C8w : Watchers :=
  { start_trigger := { pair := some { old := false, current := true } }
    is_loading := { pair := some { old := true, current := true } } }

/-- C8 counterexample: on a start tick with the loading flag true, the
`set_loading_paused` command (`pause_game_time`) is issued twice — once
unconditionally right after start and once by the loading re-evaluation. -/
theorem C8_pause_twice_counterexample :
    List.count TimerCommand.pauseGameTime
        (tickCommands TimerState.NotRunning C8w SettingsDefault) = 2 := by
  decide

/-- C8 (amended): per tick, start, split, reset, and `set_elapsed_time` are
each issued at most once; the `set_loading_paused` polarity commands
(pause/resume of elapsed time) are together issued at most twice, and can
reach two only on a tick that starts the timer — otherwise at most once. -/
theorem C8_commands_at_most_once :
    ∀ (ts : TimerState) (w : Watchers) (st : Settings),
      List.count TimerCommand.start (tickCommands ts w st) ≤ 1
      ∧ List.count TimerCommand.split (tickCommands ts w st) ≤ 1
      ∧ List.count TimerCommand.reset (tickCommands ts w st) ≤ 1
      ∧ List.count TimerCommand.setGameTime (tickCommands ts w st) ≤ 1
      ∧ List.count TimerCommand.pauseGameTime (tickCommands ts w st)
          + List.count TimerCommand.resumeGameTime (tickCommands ts w st)
          ≤ if ts = TimerState.NotRunning ∧ start w st = true then 2 else 1 := by
  intro ts w st
  cases ts <;>
    cases hst : start w st <;>
      cases hs : split w st <;>
        rcases hl : is_loading w st with _ | (_ | _) <;>
          simp [tickCommands, game_time, reset, resetSplitStep, loadingStep, hst, hs, hl,
            List.count_cons, List.count_nil]

/-- The story-branch first-play trigger of `start`, as an edge proposition:
the watched story start trigger (which `update_loop` samples as the negation
of the slot-scoped `IsNormalFirstPlay` save-data field) just transitioned to
true. -/
def storyTriggerFired (w : Watchers) : Prop :=
  ∃ p, w.start_trigger.pair = some p ∧ p.old ≠ p.current ∧ p.current = true

/-- The Trip-branch first-play trigger of `start`, as an edge proposition. -/
def tripTriggerFired (w : Watchers) : Prop :=
  ∃ p, w.start_trigger_trip.pair = some p ∧ p.old ≠ p.current ∧ p.current = true

/-- The terminal-mode trigger of `start`, as an edge proposition: the game
mode just transitioned to the Last Story value 2. -/
def lastStoryTriggerFired (w : Watchers) : Prop :=
  ∃ p, w.game_mode.pair = some p ∧ p.old ≠ p.current ∧ p.current = 2

/-- Modelled from the spec: trigger (c) of the start contract — "proceeding
past the title/menu into a cutscene", detected by comparing the currently
loaded scene name against a known menu name and the name of the scene queued
to load next. No quantity of this program's `Watchers` carries scene names, so
the trigger is an opaque boolean input alongside the snapshot; `start` as the
claim states it would OR it with the three watched triggers. -/
def start_per_claim (w : Watchers) (st : Settings) (menuToCutsceneTrigger : Bool) : Bool :=
  (st.start_story && optIsSomeAnd w.start_trigger.pair (fun v => v.changed_to true))
    || (st.start_trip && optIsSomeAnd w.start_trigger_trip.pair (fun v => v.changed_to true))
    || (st.start_last_story && optIsSomeAnd w.game_mode.pair (fun v => v.changed_to 2))
    || menuToCutsceneTrigger

/-- C5 counterexample: when only the menu-to-cutscene trigger (c) fires,
`start` as the claim describes it returns true, but the program's `start`
returns false — this variant has no such trigger. -/
theorem C5_scene_trigger_counterexample :
    start_per_claim emptyWatchers SettingsDefault true = true
    ∧ start emptyWatchers SettingsDefault = false :=
  ⟨rfl, rfl⟩

/-- C5 (amended): `start` returns true exactly when one of its three watched
triggers fires — the story first-play edge gated by `start_story`, the Trip
first-play edge gated by `start_trip`, or the game mode transitioning to the
Last Story value 2 gated by `start_last_story`. -/
theorem C5_start_trigger_characterization :
    ∀ (w : Watchers) (st : Settings),
      start w st = true ↔
        ((st.start_story = true ∧ storyTriggerFired w)
          ∨ (st.start_trip = true ∧ tripTriggerFired w)
          ∨ (st.start_last_story = true ∧ lastStoryTriggerFired w)) := by
  intro w st
  unfold start storyTriggerFired tripTriggerFired lastStoryTriggerFired
  rcases h1 : w.start_trigger.pair with _ | p1 <;>
    rcases h2 : w.start_trigger_trip.pair with _ | p2 <;>
      rcases h3 : w.game_mode.pair with _ | p3 <;>
        simp [optIsSomeAnd, Pair.changed_to, Pair.changed, h1, h2, h3, and_assoc,
          or_assoc]

/-- Snapshot with only the story first-play trigger edge, for the C5 witness. -/
def C5w : Watchers :=
  { start_trigger := { pair := some { old := false, current := true } } }

/-- Closed instantiation of `C5_start_trigger_characterization` at a snapshot
whose story first-play trigger fires. -/
theorem C5_start_trigger_characterization_witness :
    start C5w SettingsDefault = true :=
  (C5_start_trigger_characterization C5w SettingsDefault).mpr
    (Or.inl ⟨rfl, { old := false, current := true }, rfl, by decide, rfl⟩)

theorem update_infallible_isSome {α : Type} (w : Watcher α) (v : α) :
    ((w.update_infallible v).pair).isSome = true := by
  rcases hp : w.pair with _ | p <;> simp [Watcher.update_infallible, hp]

/-- A tick input on which every memory read succeeds and yields the type
default that the sampling pass would substitute on failure. -/
def allDefaultReads : TickInput :=
  { sceneNameRead := some ""
    sysSaveOk := true
    saveSlotRead := some ()
    isNormalFirstPlayRead := some false
    isTripFirstPlayRead := some false
    levelIdRead := some 0
    isLoadingRead := some false
    isTimeAttackRead := some false
    isResultSequenceRead := some false
    isGoalSequenceRead := some false
    gameModeRead := some 0
    bossNameRead := some ""
    bossBaseTypeRead := some 0 }

/-- C9: after a single sampling pass every one of the seven watched values has
a present pair, whatever the reads did; moreover a first pass on which every
read fails produces the same watcher state as one where every read succeeds
with the type default, so a failed first read is indistinguishable from a
genuine default-valued sample. -/
theorem C9_all_watchers_sampled_after_one_pass :
    (∀ (inp : TickInput) (w : Watchers),
      ((update_loop inp w).start_trigger.pair.isSome = true)
      ∧ ((update_loop inp w).start_trigger_trip.pair.isSome = true)
      ∧ ((update_loop inp w).game_mode.pair.isSome = true)
      ∧ ((update_loop inp w).level_id.pair.isSome = true)
      ∧ ((update_loop inp w).is_loading.pair.isSome = true)
      ∧ ((update_loop inp w).goal_ring_flag.pair.isSome = true)
      ∧ ((update_loop inp w).boss_defeated.pair.isSome = true))
    ∧ update_loop ({} : TickInput) emptyWatchers
        = update_loop allDefaultReads emptyWatchers := by
  constructor
  · intro inp w
    refine ⟨?_, ?_, ?_, ?_, ?_, ?_, ?_⟩ <;>
      simp [update_loop, update_infallible_isSome]
  · decide

theorem level_id_hold (inp : TickInput) (w : Watchers)
    (hscene : isGameScene inp.sceneNameRead = false) (p : Pair Nat)
    (hp : w.level_id.pair = some p) :
    (update_loop inp w).level_id.pair = some { old := p.current, current := p.current } := by
  simp [update_loop, Watcher.update_infallible, hscene, hp]

theorem goal_ring_hold (inp : TickInput) (w : Watchers)
    (hscene : isGameScene inp.sceneNameRead = false) (p : Pair Bool)
    (hp : w.goal_ring_flag.pair = some p) :
    (update_loop inp w).goal_ring_flag.pair
      = some { old := p.current, current := p.current } := by
  simp [update_loop, Watcher.update_infallible, hscene, hp]

theorem boss_defeated_hold (inp : TickInput) (w : Watchers)
    (hboss : bossRecognized inp.bossNameRead = false) (p : Pair Bool)
    (hp : w.boss_defeated.pair = some p) :
    (update_loop inp w).boss_defeated.pair
      = some { old := p.current, current := p.current } := by
  simp [update_loop, Watcher.update_infallible, hboss, hp]

/-- Snapshot refuting C2 as stated: the loading flag was successfully sampled
true. -/
def C2w : Watchers :=
  { is_loading := { pair := some { old := true, current := true } } }

/-- A tick on which every memory read fails. -/
def C2failInp : TickInput := {}

/-- C2 counterexample: after a successful loading-flag sample `v1 = true`, a
single failed sample leaves `current = false ≠ v1` (the type default is
installed, not the held value) and `changed()` is true. -/
theorem C2_hold_counterexample :
    C2w.is_loading.pair.map Pair.current = some true
    ∧ C2failInp.isLoadingRead = none
    ∧ (update_loop C2failInp C2w).is_loading.pair
        = some { old := true, current := false }
    ∧ optIsSomeAnd (update_loop C2failInp C2w).is_loading.pair Pair.changed = true := by
  decide

/-- C2 (amended): the hold-on-failure property holds exactly for the
context-gated quantities. After a successful sample, any number of sampling
passes in which the scene controller is not a game scene and the active boss
type is not recognized leave the current values of `level_id`,
`goal_ring_flag` and `boss_defeated` unchanged, and after every such pass the
pair is diagonal, so `changed()` is false throughout; the directly-read
quantities instead install a type default on a failed read, e.g. a failed
loading-flag read makes `current = false` regardless of the previous value. -/
theorem C2_hold_for_gated_quantities :
    (∀ (inps : List TickInput),
      (∀ i ∈ inps, isGameScene i.sceneNameRead = false
          ∧ bossRecognized i.bossNameRead = false) →
      ∀ (w : Watchers) (lp : Pair Nat) (gp bp : Pair Bool),
        w.level_id.pair = some lp → w.goal_ring_flag.pair = some gp →
        w.boss_defeated.pair = some bp →
        ((applyTicks inps w).level_id.pair.map Pair.current = some lp.current
          ∧ (applyTicks inps w).goal_ring_flag.pair.map Pair.current = some gp.current
          ∧ (applyTicks inps w).boss_defeated.pair.map Pair.current = some bp.current
          ∧ (inps ≠ [] →
              (applyTicks inps w).level_id.pair
                  = some { old := lp.current, current := lp.current }
                ∧ (applyTicks inps w).goal_ring_flag.pair
                  = some { old := gp.current, current := gp.current }
                ∧ (applyTicks inps w).boss_defeated.pair
                  = some { old := bp.current, current := bp.current }
                ∧ optIsSomeAnd (applyTicks inps w).level_id.pair Pair.changed = false
                ∧ optIsSomeAnd (applyTicks inps w).goal_ring_flag.pair Pair.changed = false
                ∧ optIsSomeAnd (applyTicks inps w).boss_defeated.pair Pair.changed = false)))
    ∧ ∀ (inp : TickInput) (w : Watchers), inp.isLoadingRead = none →
        (update_loop inp w).is_loading.pair.map Pair.current = some false := by
  constructor
  · intro inps
    induction inps with
    | nil =>
      intro _ w lp gp bp hl hg hb
      exact ⟨by simp [applyTicks, hl], by simp [applyTicks, hg], by simp [applyTicks, hb],
        fun hne => absurd rfl hne⟩
    | cons i rest ih =>
      intro hall w lp gp bp hl hg hb
      have hi := hall i (List.mem_cons_self i rest)
      have hrest : ∀ j ∈ rest, isGameScene j.sceneNameRead = false
          ∧ bossRecognized j.bossNameRead = false :=
        fun j hj => hall j (List.mem_cons_of_mem i hj)
      have h1 := level_id_hold i w hi.1 lp hl
      have h2 := goal_ring_hold i w hi.1 gp hg
      have h3 := boss_defeated_hold i w hi.2 bp hb
      have hstep : applyTicks (i :: rest) w = applyTicks rest (update_loop i w) := rfl
      obtain ⟨ih1, ih2, ih3, ih4⟩ := ih hrest (update_loop i w) _ _ _ h1 h2 h3
      rw [hstep]
      refine ⟨ih1, ih2, ih3, fun _ => ?_⟩
      rcases rest with _ | ⟨j, t⟩
      · refine ⟨h1, h2, h3, ?_, ?_, ?_⟩ <;>
          simp [applyTicks, h1, h2, h3, optIsSomeAnd, Pair.changed]
      · obtain ⟨e1, e2, e3, c1, c2, c3⟩ := ih4 (by simp)
        exact ⟨e1, e2, e3, c1, c2, c3⟩
  · intro inp w hload
    rcases hp : w.is_loading.pair with _ | p <;>
      simp [update_loop, Watcher.update_infallible, hload, hp]

/-- Snapshot whose gated quantities carry fresh successful samples, for the C2
witness. -/
def C2wHold : Watchers :=
  { level_id := { pair := some { old := 5, current := 7 } }
    goal_ring_flag := { pair := some { old := false, current := true } }
    boss_defeated := { pair := some { old := false, current := true } } }

/-- Closed instantiation of `C2_hold_for_gated_quantities`: one all-failed
tick on concrete gated samples holds every gated current value, and a failed
loading read installs the default. -/
theorem C2_hold_for_gated_quantities_witness :
    (applyTicks [C2failInp] C2wHold).level_id.pair.map Pair.current = some 7
    ∧ (update_loop C2failInp C2wHold).is_loading.pair.map Pair.current = some false :=
  ⟨(C2_hold_for_gated_quantities.1 [C2failInp] (by decide) C2wHold
      { old := 5, current := 7 } { old := false, current := true }
      { old := false, current := true } rfl rfl rfl).1,
   C2_hold_for_gated_quantities.2 C2failInp C2wHold rfl⟩

end SonicSuperstars
